import Mathlib

set_option maxHeartbeats 1000000

/-!
Shallow embedding of `src/aws-cloudwatch-chart.js`.

JavaScript numbers are modelled as exact rationals (`ℚ`); millisecond
timestamps (JS `Date` values) as integers (`ℤ`).  Fallible code returns
`Except String`.  The float literal `1.2` is modelled as the rational
`6/5`; all concrete inputs used below keep every intermediate float of
the original program exactly representable, so the rational model agrees
with the JavaScript evaluation on them.
-/

/-- JavaScript `ToIntegerOrInfinity` on a finite number: truncation toward
zero.  `Date.prototype.setTime` applies this (via `TimeClip`) to its
argument, so the accumulated bucket boundary in `getURL` is truncated at
every step. -/
def jsTrunc (q : ℚ) : ℤ := if 0 ≤ q then ⌊q⌋ else ⌈q⌉

/-- JavaScript remainder operator on finite numbers: `a % b = a - b * trunc (a / b)`. -/
def jsMod (a b : ℚ) : ℚ := a - b * (jsTrunc (a / b) : ℚ)

/-- The update pattern `if (acc < v) acc = v` used by `getURL` for
`maxInPeriod` (src line 339) and `absMaxValue` (src line 358). -/
def jsMaxUpd (a v : ℚ) : ℚ := if a < v then v else a

/-! ## The value encoder (src lines 206–233) -/

/-- src line 206: the 64-character encoding alphabet. -/
def EXTENDED_MAP : String :=
  "ABCDEFGHIJKLMNOPQRSTUVWXYZabcdefghijklmnopqrstuvwxyz0123456789-."

/-- src line 211: `EXTENDED_MAP_LENGTH = this.EXTENDED_MAP.length`. -/
def EXTENDED_MAP_LENGTH : ℤ := (EXTENDED_MAP.length : ℤ)

/-- JavaScript `String.prototype.charAt` with an integer index: the
one-character string at that index, or the empty string out of range. -/
def charAt (s : String) (n : ℤ) : String :=
  String.mk (if 0 ≤ n then (s.toList.drop n.toNat).take 1 else [])

/-- src line 216: `scaledVal = Math.floor(EXTENDED_MAP_LENGTH * EXTENDED_MAP_LENGTH * numericVal / maxVal)`. -/
def scaledVal (maxVal v : ℚ) : ℤ :=
  ⌊(EXTENDED_MAP_LENGTH : ℚ) * (EXTENDED_MAP_LENGTH : ℚ) * v / maxVal⌋

/-- src line 225: `quotient = Math.floor(scaledVal / EXTENDED_MAP_LENGTH)`. -/
def quotient (maxVal v : ℚ) : ℤ :=
  ⌊(scaledVal maxVal v : ℚ) / (EXTENDED_MAP_LENGTH : ℚ)⌋

/-- src line 226: `remainder = scaledVal - EXTENDED_MAP_LENGTH * quotient`. -/
def remainder (maxVal v : ℚ) : ℤ :=
  scaledVal maxVal v - EXTENDED_MAP_LENGTH * quotient maxVal v

/-- Body of the encoding loop (src lines 214–229): the two characters
appended to `chartData` for one value. -/
def encodeOne (maxVal v : ℚ) : String :=
  if scaledVal maxVal v > EXTENDED_MAP_LENGTH * EXTENDED_MAP_LENGTH - 1 then ".."
  else if scaledVal maxVal v < 0 then "__"
  else charAt EXTENDED_MAP (quotient maxVal v) ++ charAt EXTENDED_MAP (remainder maxVal v)

/-- src lines 208–233: `extendedEncode(arrVals, maxVal)`. -/
def extendedEncode (arrVals : List ℚ) (maxVal : ℚ) : String :=
  arrVals.foldl (fun chartData v => chartData ++ encodeOne maxVal v) ""

/-- The spec's per-value encoding rule, written with integer `div`/`mod` as
the spec states it: overflow marker, underflow marker, or
`alphabet[s div 64] ++ alphabet[s mod 64]`. -/
def specEncodeOne (maxVal v : ℚ) : String :=
  let s := scaledVal maxVal v
  if s > 4095 then ".."
  else if s < 0 then "__"
  else charAt EXTENDED_MAP (s / 64) ++ charAt EXTENDED_MAP (s % 64)

lemma EXTENDED_MAP_length_eq : EXTENDED_MAP.length = 64 := rfl

lemma EXTENDED_MAP_LENGTH_eq : EXTENDED_MAP_LENGTH = 64 := rfl

lemma string_append_data (a b : String) : (a ++ b).data = a.data ++ b.data := rfl

lemma string_length_append (a b : String) : (a ++ b).length = a.length + b.length := by
  cases a; cases b
  exact List.length_append _ _

lemma string_append_empty (a : String) : a ++ "" = a := by
  cases a
  show String.mk (_ ++ []) = _
  rw [List.append_nil]

lemma string_append_assoc (a b c : String) : a ++ b ++ c = a ++ (b ++ c) := by
  cases a; cases b; cases c
  show String.mk (_ ++ _ ++ _) = String.mk (_ ++ (_ ++ _))
  rw [List.append_assoc]

lemma charAt_length_one (s : String) (n : ℤ) (h0 : 0 ≤ n) (h : n.toNat < s.length) :
    (charAt s n).length = 1 := by
  have hlen : n.toNat < s.toList.length := h
  simp only [charAt, if_pos h0]
  show (List.take 1 (List.drop n.toNat s.toList)).length = 1
  rw [List.length_take, List.length_drop]
  omega

lemma floor_div_64 (m : ℤ) : ⌊(m : ℚ) / ((64 : ℤ) : ℚ)⌋ = m / 64 := by
  rw [show ((64 : ℤ) : ℚ) = ((64 : ℕ) : ℚ) by norm_num, Rat.floor_intCast_div_natCast]
  rfl

/-- Bounds on the non-marker branch: the scaled value, quotient and
remainder, with `quotient = s / 64` and `remainder = s % 64`. -/
lemma quotient_remainder_spec (maxVal v : ℚ)
    (h0 : 0 ≤ scaledVal maxVal v) (h1 : scaledVal maxVal v ≤ 4095) :
    quotient maxVal v = scaledVal maxVal v / 64 ∧
    remainder maxVal v = scaledVal maxVal v % 64 ∧
    0 ≤ quotient maxVal v ∧ quotient maxVal v ≤ 63 ∧
    0 ≤ remainder maxVal v ∧ remainder maxVal v ≤ 63 := by
  have hq : quotient maxVal v = scaledVal maxVal v / 64 := by
    unfold quotient
    rw [EXTENDED_MAP_LENGTH_eq]
    exact floor_div_64 _
  have hr : remainder maxVal v = scaledVal maxVal v % 64 := by
    unfold remainder
    rw [EXTENDED_MAP_LENGTH_eq, hq, Int.emod_def]
  refine ⟨hq, hr, ?_, ?_, ?_, ?_⟩
  · rw [hq]; exact Int.ediv_nonneg h0 (by norm_num)
  · rw [hq]; omega
  · rw [hr]; exact Int.emod_nonneg _ (by norm_num)
  · rw [hr]
    have := Int.emod_lt_of_pos (scaledVal maxVal v) (b := 64) (by norm_num)
    omega

lemma encodeOne_spec (maxVal v : ℚ) :
    encodeOne maxVal v = specEncodeOne maxVal v ∧ (encodeOne maxVal v).length = 2 := by
  unfold encodeOne specEncodeOne
  rw [EXTENDED_MAP_LENGTH_eq]
  by_cases hover : scaledVal maxVal v > 64 * 64 - 1
  · rw [if_pos (by omega : scaledVal maxVal v > 64 * 64 - 1),
      if_pos (by omega : scaledVal maxVal v > 4095)]
    exact ⟨rfl, rfl⟩
  · rw [if_neg (by omega : ¬scaledVal maxVal v > 64 * 64 - 1),
      if_neg (by omega : ¬scaledVal maxVal v > 4095)]
    by_cases hneg : scaledVal maxVal v < 0
    · rw [if_pos hneg, if_pos hneg]
      exact ⟨rfl, rfl⟩
    · rw [if_neg hneg, if_neg hneg]
      obtain ⟨hq, hr, hq0, hq63, hr0, hr63⟩ :=
        quotient_remainder_spec maxVal v (by omega) (by omega)
      constructor
      · rw [hq, hr]
      · rw [string_length_append,
          charAt_length_one _ _ hq0 (by rw [EXTENDED_MAP_length_eq]; omega),
          charAt_length_one _ _ hr0 (by rw [EXTENDED_MAP_length_eq]; omega)]

lemma string_empty_append (a : String) : "" ++ a = a := by
  cases a
  show String.mk ([] ++ _) = _
  rw [List.nil_append]

lemma string_foldl_append (l : List String) : ∀ acc : String,
    l.foldl (fun r s => r ++ s) acc = acc ++ l.foldl (fun r s => r ++ s) "" := by
  induction l with
  | nil => intro acc; exact (string_append_empty acc).symm
  | cons x xs ih =>
    intro acc
    rw [List.foldl_cons, List.foldl_cons, ih (acc ++ x), ih ("" ++ x),
      string_empty_append, string_append_assoc]

lemma string_join_cons (a : String) (l : List String) :
    String.join (a :: l) = a ++ String.join l := by
  show (a :: l).foldl (fun r s => r ++ s) "" = a ++ l.foldl (fun r s => r ++ s) ""
  rw [List.foldl_cons, string_foldl_append, string_empty_append]

/-- The spec-side encoding of a whole value sequence. -/
def specEncode (arrVals : List ℚ) (maxVal : ℚ) : String :=
  String.join (arrVals.map (specEncodeOne maxVal))

lemma extendedEncode_foldl (maxVal : ℚ) (arrVals : List ℚ) : ∀ acc : String,
    arrVals.foldl (fun chartData v => chartData ++ encodeOne maxVal v) acc =
      acc ++ specEncode arrVals maxVal := by
  induction arrVals with
  | nil =>
    intro acc
    show acc = acc ++ String.join []
    rw [show String.join ([] : List String) = "" from rfl, string_append_empty]
  | cons x xs ih =>
    intro acc
    rw [List.foldl_cons, ih (acc ++ encodeOne maxVal x)]
    show _ = acc ++ String.join ((x :: xs).map (specEncodeOne maxVal))
    rw [List.map_cons, string_join_cons, string_append_assoc, (encodeOne_spec maxVal x).1]
    rfl

lemma specEncode_length (maxVal : ℚ) (arrVals : List ℚ) :
    (specEncode arrVals maxVal).length = 2 * arrVals.length := by
  induction arrVals with
  | nil => rfl
  | cons x xs ih =>
    show (String.join ((x :: xs).map (specEncodeOne maxVal))).length = _
    rw [List.map_cons, string_join_cons, string_length_append]
    have hx := (encodeOne_spec maxVal x).1 ▸ (encodeOne_spec maxVal x).2
    rw [hx]
    show 2 + (specEncode xs maxVal).length = 2 * (xs.length + 1)
    rw [ih]
    ring

/-- C2: each input value is encoded to exactly two characters following the
overflow / underflow / two-digit rules, so the output has twice the input
length.  (`maxVal ≠ 0` keeps the rational model faithful to the float
division of the source; with `maxVal = 0` the source divides by zero.) -/
theorem claim_C2 (arrVals : List ℚ) (maxVal : ℚ) (hmv : maxVal ≠ 0) :
    extendedEncode arrVals maxVal = specEncode arrVals maxVal ∧
    (extendedEncode arrVals maxVal).length = 2 * arrVals.length := by
  have h : extendedEncode arrVals maxVal = specEncode arrVals maxVal := by
    unfold extendedEncode
    rw [extendedEncode_foldl, string_empty_append]
  exact ⟨h, by rw [h, specEncode_length]⟩

/-- Witness for C2 at concrete inputs: a mid-range value, an overflowing
value and a negative value against `maxVal = 1`. -/
theorem claim_C2_witness :
    ((1 : ℚ) ≠ 0) ∧
    (extendedEncode [1/2, 2, -1] 1 = specEncode [1/2, 2, -1] 1 ∧
      (extendedEncode [1/2, 2, -1] 1).length = 2 * ([1/2, 2, -1] : List ℚ).length) :=
  ⟨by norm_num, claim_C2 [1/2, 2, -1] 1 (by norm_num)⟩

/-- C3: when the encoder emits the two-digit pair (scaled value in range),
decoding `(quotient*64 + remainder)/4096 * M` recovers the input within
`M/4096`. -/
theorem claim_C3 (M v : ℚ) (hM : 0 < M) (hv0 : 0 ≤ v) (hvM : v ≤ M)
    (hpair : scaledVal M v ≤ 4095) :
    |((quotient M v * 64 + remainder M v : ℤ) : ℚ) / 4096 * M - v| ≤ M / 4096 := by
  have hsdef : scaledVal M v = ⌊4096 * v / M⌋ := by
    unfold scaledVal
    rw [EXTENDED_MAP_LENGTH_eq]
    congr 1
    push_cast
    ring
  have hqr : quotient M v * 64 + remainder M v = scaledVal M v := by
    unfold remainder
    rw [EXTENDED_MAP_LENGTH_eq]
    ring
  rw [hqr]
  have hfloor_le : ((scaledVal M v : ℤ) : ℚ) ≤ 4096 * v / M := by
    rw [hsdef]; exact Int.floor_le _
  have hlt_floor : 4096 * v / M < ((scaledVal M v : ℤ) : ℚ) + 1 := by
    rw [hsdef]; exact Int.lt_floor_add_one _
  have h1 : ((scaledVal M v : ℤ) : ℚ) * M ≤ 4096 * v := by
    have := (le_div_iff₀ hM).mp hfloor_le
    linarith
  have h2 : 4096 * v < (((scaledVal M v : ℤ) : ℚ) + 1) * M := by
    have := (div_lt_iff₀ hM).mp hlt_floor
    linarith
  rw [abs_le]
  constructor
  · nlinarith
  · nlinarith

/-- Witness for C3 at `M = 2`, `v = 1`: the scaled value is 2048, within
range, and the decoded value is exactly 1. -/
theorem claim_C3_witness :
    ((0 : ℚ) < 2 ∧ (0 : ℚ) ≤ 1 ∧ (1 : ℚ) ≤ 2 ∧ scaledVal 2 1 ≤ 4095) ∧
    |((quotient 2 1 * 64 + remainder 2 1 : ℤ) : ℚ) / 4096 * 2 - 1| ≤ 2 / 4096 :=
  ⟨⟨by norm_num, by norm_num, by norm_num,
      by norm_num [scaledVal, EXTENDED_MAP_LENGTH_eq]⟩,
    claim_C3 2 1 (by norm_num) (by norm_num) (by norm_num)
      (by norm_num [scaledVal, EXTENDED_MAP_LENGTH_eq])⟩

/-! ## Data model (src lines 410–423, datapoints from getMetricStatistics) -/

/-- A dimension object `{Name, Value}` as passed by the caller; `Value` is
optional (JS `undefined` when absent). -/
structure Dimension where
  Name : String := ""
  Value : Option String := none
deriving DecidableEq

instance : Inhabited Dimension := ⟨{}⟩

/-- A datapoint returned by the statistics API: a timestamp in milliseconds
and optional `Maximum` / `Average` statistic fields. -/
structure Datapoint where
  Timestamp : ℤ
  Maximum : Option ℚ := none
  Average : Option ℚ := none
deriving DecidableEq

/-- A dynamically-typed JavaScript value as configured for a metric field:
the shapes the module's callers supply. -/
inductive ParamVal where
  | pStr (s : String)
  | pNum (q : ℚ)
  | pBool (b : Bool)
  | pDims (l : List Dimension)
deriving DecidableEq

/-- JavaScript string coercion `'' + v`, modelled for the value shapes above
(exact for strings and booleans; numeric and array coercions are
approximated, and no claim depends on them). -/
def jsToString : ParamVal → String
  | .pStr s => s
  | .pNum q => toString q
  | .pBool b => if b then "true" else "false"
  | .pDims _ => "[object Object]"

/-- JavaScript truthiness of a configured value (src line 149 `params[k] ? true : false`). -/
def jsTruthy : ParamVal → Bool
  | .pStr s => s ≠ ""
  | .pNum q => q ≠ 0
  | .pBool b => b
  | .pDims _ => true

/-- Loose equality of a stored statistic against the string `'Maximum'`
(src line 355 `this.metrics[km].statistic == 'Maximum'`): only the string
`"Maximum"` compares equal among the value shapes above. -/
def jsEqMaximum : ParamVal → Bool
  | .pStr s => s = "Maximum"
  | _ => false

/-- The structure `AwsCloudWatchChartMetric` (src lines 410–423) with the fields assigned
by `addMetric`; defaults are the constructor's (src lines 413–422). -/
structure Metric where
  Dimensions : List Dimension := []
  datapoints : List Datapoint := []
  statistic : ParamVal := .pStr "Average"
  color : ParamVal := .pStr "FF0000"
  thickness : String := "1"
  dashed : Bool := false
  title : Option String := none
  Namespace : Option String := none
  MetricName : Option String := none
  Unit : Option ParamVal := none
deriving DecidableEq

instance : Inhabited Metric := ⟨{}⟩

/-- JavaScript `x || ''` on an optional string (src line 463). -/
def jsOrEmpty (a : Option String) : String :=
  match a with
  | some s => if s = "" then "" else s
  | none => ""

/-- src lines 456–467: `getTitle`. -/
def getTitle (m : Metric) : String :=
  match m.title with
  | some t => t
  | none =>
    if 0 < m.Dimensions.length then jsOrEmpty ((m.Dimensions.headI).Value) else ""

/-- The spec's title rule: the configured title, else the first dimension's
`Value`, else the empty string. -/
def specTitle (m : Metric) : String :=
  match m.title with
  | some t => t
  | none =>
    match m.Dimensions with
    | [] => ""
    | d :: _ => d.Value.getD ""

/-- C9: title resolution follows configured title → first dimension's Value
→ empty string. -/
theorem claim_C9 (m : Metric) : getTitle m = specTitle m := by
  unfold getTitle specTitle
  cases m.title with
  | some t => rfl
  | none =>
    cases m.Dimensions with
    | nil => rfl
    | cons d rest =>
      show (if 0 < (d :: rest).length then jsOrEmpty (List.headI (d :: rest)).Value else "")
          = d.Value.getD ""
      rw [if_pos (by simp)]
      show jsOrEmpty d.Value = d.Value.getD ""
      cases d.Value with
      | none => rfl
      | some s =>
        show (if s = "" then "" else s) = s
        by_cases hs : s = ""
        · rw [if_pos hs, hs]
        · rw [if_neg hs]

/-! ## The per-bucket reduction (src lines 327–362) -/

/-- One step of the reduction loop (src lines 333–348) on the accumulator
`(maxInPeriod, totalInPeriod, totalInPeriodCount)` for one datapoint. -/
def bucketStep (startT endT : ℤ) (acc : ℚ × ℚ × ℕ) (p : Datapoint) : ℚ × ℚ × ℕ :=
  if startT < p.Timestamp ∧ p.Timestamp ≤ endT then
    (match p.Maximum with
     | some mv => jsMaxUpd acc.1 mv
     | none => acc.1,
     match p.Average with
     | some av => (acc.2.1 + av, acc.2.2 + 1)
     | none => acc.2)
  else acc

/-- src lines 329–348: the reduction over one metric's datapoints for one
bucket, starting from `(0, 0, 0)`. -/
def bucketReduce (dps : List Datapoint) (startT endT : ℤ) : ℚ × ℚ × ℕ :=
  dps.foldl (bucketStep startT endT) (0, 0, 0)

/-- src lines 329, 338–340: `maxInPeriod`. -/
def maxInPeriod (dps : List Datapoint) (startT endT : ℤ) : ℚ :=
  (bucketReduce dps startT endT).1

/-- src lines 350–352: `averageInPeriod` (the sum accumulator, divided by
the count only when the count is positive). -/
def averageInPeriod (dps : List Datapoint) (startT endT : ℤ) : ℚ :=
  let r := bucketReduce dps startT endT
  if 0 < r.2.2 then r.2.1 / (r.2.2 : ℚ) else r.2.1

/-- src lines 354–356: `toPush`, the bucket scalar for one metric. -/
def bucketScalar (statistic : ParamVal) (dps : List Datapoint) (startT endT : ℤ) : ℚ :=
  if jsEqMaximum statistic then maxInPeriod dps startT endT
  else averageInPeriod dps startT endT

/-- The spec's selection rule: datapoints with `startT < t ≤ endT`. -/
def selectedPoints (dps : List Datapoint) (startT endT : ℤ) : List Datapoint :=
  dps.filter (fun p => startT < p.Timestamp ∧ p.Timestamp ≤ endT)

/-- The `Maximum` fields present among the selected points. -/
def selMaxima (dps : List Datapoint) (startT endT : ℤ) : List ℚ :=
  (selectedPoints dps startT endT).filterMap Datapoint.Maximum

/-- The `Average` fields present among the selected points. -/
def selAverages (dps : List Datapoint) (startT endT : ℤ) : List ℚ :=
  (selectedPoints dps startT endT).filterMap Datapoint.Average

/-- Amended spec-side maximum: the maximum of 0 and the selected points'
`Maximum` fields. -/
def specBucketMax (dps : List Datapoint) (startT endT : ℤ) : ℚ :=
  (selMaxima dps startT endT).foldl max 0

/-- The claim's maximum as literally stated: the maximum of the selected
points' `Maximum` fields, 0 only when there are none. -/
def claimBucketMax (dps : List Datapoint) (startT endT : ℤ) : ℚ :=
  match selMaxima dps startT endT with
  | [] => 0
  | v :: rest => rest.foldl max v

/-- Spec-side average: the mean of the selected points' `Average` fields,
0 when none is present. -/
def specBucketAvg (dps : List Datapoint) (startT endT : ℤ) : ℚ :=
  if 0 < (selAverages dps startT endT).length then
    (selAverages dps startT endT).sum / ((selAverages dps startT endT).length : ℚ)
  else 0

lemma jsMaxUpd_eq_max (a v : ℚ) : jsMaxUpd a v = max a v := by
  unfold jsMaxUpd
  by_cases h : a < v
  · rw [if_pos h, max_eq_right (le_of_lt h)]
  · rw [if_neg h, max_eq_left (not_lt.mp h)]

lemma bucketReduce_foldl (startT endT : ℤ) (dps : List Datapoint) : ∀ acc : ℚ × ℚ × ℕ,
    dps.foldl (bucketStep startT endT) acc =
      ((selMaxima dps startT endT).foldl jsMaxUpd acc.1,
        acc.2.1 + (selAverages dps startT endT).sum,
        acc.2.2 + (selAverages dps startT endT).length) := by
  induction dps with
  | nil => intro acc; simp [selMaxima, selAverages, selectedPoints]
  | cons p rest ih =>
    intro acc
    rw [List.foldl_cons, ih (bucketStep startT endT acc p)]
    by_cases hin : startT < p.Timestamp ∧ p.Timestamp ≤ endT
    · cases hmax : p.Maximum with
      | some mv =>
        have hM : selMaxima (p :: rest) startT endT = mv :: selMaxima rest startT endT := by
          simp [selMaxima, selectedPoints, List.filter_cons, hin, List.filterMap_cons, hmax]
        cases havg : p.Average with
        | some av =>
          have hA : selAverages (p :: rest) startT endT =
              av :: selAverages rest startT endT := by
            simp [selAverages, selectedPoints, List.filter_cons, hin,
              List.filterMap_cons, havg]
          have hstep : bucketStep startT endT acc p =
              (jsMaxUpd acc.1 mv, acc.2.1 + av, acc.2.2 + 1) := by
            simp [bucketStep, if_pos hin, hmax, havg]
          rw [hstep, hM, hA, List.foldl_cons, List.sum_cons, List.length_cons]
          simp only [Prod.mk.injEq, true_and]
          exact ⟨by ring, by omega⟩
        | none =>
          have hA : selAverages (p :: rest) startT endT = selAverages rest startT endT := by
            simp [selAverages, selectedPoints, List.filter_cons, hin,
              List.filterMap_cons, havg]
          have hstep : bucketStep startT endT acc p =
              (jsMaxUpd acc.1 mv, acc.2.1, acc.2.2) := by
            simp [bucketStep, if_pos hin, hmax, havg]
          rw [hstep, hM, hA, List.foldl_cons]
      | none =>
        have hM : selMaxima (p :: rest) startT endT = selMaxima rest startT endT := by
          simp [selMaxima, selectedPoints, List.filter_cons, hin, List.filterMap_cons, hmax]
        cases havg : p.Average with
        | some av =>
          have hA : selAverages (p :: rest) startT endT =
              av :: selAverages rest startT endT := by
            simp [selAverages, selectedPoints, List.filter_cons, hin,
              List.filterMap_cons, havg]
          have hstep : bucketStep startT endT acc p =
              (acc.1, acc.2.1 + av, acc.2.2 + 1) := by
            simp [bucketStep, if_pos hin, hmax, havg]
          rw [hstep, hM, hA, List.sum_cons, List.length_cons]
          simp only [Prod.mk.injEq, true_and]
          exact ⟨by ring, by omega⟩
        | none =>
          have hA : selAverages (p :: rest) startT endT = selAverages rest startT endT := by
            simp [selAverages, selectedPoints, List.filter_cons, hin,
              List.filterMap_cons, havg]
          have hstep : bucketStep startT endT acc p = (acc.1, acc.2.1, acc.2.2) := by
            simp [bucketStep, if_pos hin, hmax, havg]
          rw [hstep, hM, hA]
    · have hsel : selectedPoints (p :: rest) startT endT =
          selectedPoints rest startT endT := by
        simp [selectedPoints, List.filter_cons, hin]
      have hstep : bucketStep startT endT acc p = acc := by
        simp [bucketStep, if_neg hin]
      rw [hstep]
      simp only [selMaxima, selAverages, hsel]

lemma foldl_jsMaxUpd_eq (l : List ℚ) (a : ℚ) : l.foldl jsMaxUpd a = l.foldl max a := by
  induction l generalizing a with
  | nil => rfl
  | cons x xs ih => rw [List.foldl_cons, List.foldl_cons, jsMaxUpd_eq_max, ih]

lemma bucketReduce_eq (dps : List Datapoint) (startT endT : ℤ) :
    bucketReduce dps startT endT =
      ((selMaxima dps startT endT).foldl max 0,
        (selAverages dps startT endT).sum,
        (selAverages dps startT endT).length) := by
  unfold bucketReduce
  rw [bucketReduce_foldl]
  rw [foldl_jsMaxUpd_eq]
  norm_num

/-- C4 (amended): the reduction selects exactly the points in
`(startT, endT]`; the maximum statistic is the maximum of 0 and the
selected `Maximum` fields; the average statistic is the mean of the
selected `Average` fields (0 when none); an empty selection yields 0 for
both. -/
theorem claim_C4 (dps : List Datapoint) (startT endT : ℤ) :
    maxInPeriod dps startT endT = specBucketMax dps startT endT ∧
    averageInPeriod dps startT endT = specBucketAvg dps startT endT ∧
    (selectedPoints dps startT endT = [] →
      maxInPeriod dps startT endT = 0 ∧ averageInPeriod dps startT endT = 0) := by
  have hmax : maxInPeriod dps startT endT = specBucketMax dps startT endT := by
    unfold maxInPeriod specBucketMax
    rw [bucketReduce_eq]
  have havg : averageInPeriod dps startT endT = specBucketAvg dps startT endT := by
    unfold averageInPeriod specBucketAvg
    rw [bucketReduce_eq]
    by_cases h : 0 < (selAverages dps startT endT).length
    · rw [if_pos h, if_pos h]
    · rw [if_neg h, if_neg h]
      have : selAverages dps startT endT = [] :=
        List.length_eq_zero.mp (by omega)
      rw [this]
      rfl
  refine ⟨hmax, havg, fun hempty => ⟨?_, ?_⟩⟩
  · rw [hmax]
    unfold specBucketMax selMaxima
    rw [hempty]
    rfl
  · rw [havg]
    unfold specBucketAvg selAverages
    rw [hempty]
    rfl

/-- Witness for C4: an empty selection (no datapoints at all in the bucket)
gives 0 for both statistics. -/
theorem claim_C4_witness :
    selectedPoints [] 0 1 = [] ∧ maxInPeriod [] 0 1 = 0 ∧ averageInPeriod [] 0 1 = 0 :=
  ⟨rfl, (claim_C4 [] 0 1).2.2 rfl⟩

/-- C4 counterexample: a selected point whose `Maximum` field is negative.
The claim's reduction gives that negative maximum, but the code's
accumulator starts at 0 and never goes below it. -/
theorem claim_C4_counterexample :
    maxInPeriod [{ Timestamp := 1, Maximum := some (-1) }] 0 2 = 0 ∧
    claimBucketMax [{ Timestamp := 1, Maximum := some (-1) }] 0 2 = -1 ∧
    (0 : ℚ) ≠ -1 := by
  refine ⟨?_, ?_, by norm_num⟩
  · show jsMaxUpd 0 (-1) = 0
    norm_num [jsMaxUpd]
  · rfl

/-- C8: a series whose statistic is `Maximum` contributes the maximum
reduction for every bucket, and any other statistic contributes the
average reduction. -/
theorem claim_C8 (statistic : ParamVal) (dps : List Datapoint) (startT endT : ℤ) :
    bucketScalar statistic dps startT endT =
      if jsEqMaximum statistic then specBucketMax dps startT endT
      else specBucketAvg dps startT endT := by
  unfold bucketScalar
  by_cases h : jsEqMaximum statistic
  · rw [if_pos h, if_pos h, (claim_C4 dps startT endT).1]
  · rw [if_neg h, if_neg h, (claim_C4 dps startT endT).2.1]

/-! ## The resampling walk and getURL (src lines 279–407) -/

/-- The boundary walk of src lines 305–316: the successive values of `i`
(each `setTime` truncates the accumulated float).  Fuel-based shallow
embedding of the JS `for` loop; the JS loop itself does not terminate when
the step advances less than 1 ms per iteration, and the fuel bound used
below (`span + 2`) can be exhausted only in that divergent case. -/
def walkBoundaries (endT : ℤ) (diff : ℚ) : ℤ → ℕ → List ℤ
  | _, 0 => []
  | i, f + 1 =>
    if i ≤ endT then i :: walkBoundaries endT diff (jsTrunc ((i : ℚ) + diff)) f else []

/-- src lines 299–316: `diff = (endTime - startTime) / chartSamples`, then
the walk emitting one bucket `(prevTime, i]` per visited boundary after the
first. -/
def timeBuckets (startT endT : ℤ) (chartSamples : ℚ) : List (ℤ × ℤ) :=
  let diff := ((endT - startT : ℤ) : ℚ) / chartSamples
  let bs := walkBoundaries endT diff startT ((endT - startT).toNat + 2)
  bs.zip bs.tail

/-- src lines 280–297: the min/max timestamp scan over every datapoint of
every metric; `none` when there are no datapoints at all (in JS,
`startTime`/`endTime` stay `false` and the loop crashes). -/
def chartTimeRange (metrics : List Metric) : Option (ℤ × ℤ) :=
  metrics.foldl
    (fun acc m =>
      m.datapoints.foldl
        (fun acc2 p =>
          match acc2 with
          | none => some (p.Timestamp, p.Timestamp)
          | some (s, e) => some (min s p.Timestamp, max e p.Timestamp))
        acc)
    none

/-- JS padding `("0" + n).slice(-2)`. -/
def pad2 (n : ℤ) : String :=
  let s := "0" ++ toString n
  s.drop (s.length - 2)

/-- src line 309: the bucket label `HH:MM` (UTC) of a ms timestamp. -/
def labelText (t : ℤ) : String :=
  pad2 ((t / 3600000) % 24) ++ ":" ++ pad2 ((t / 60000) % 60)

/-- src lines 322–365: one dataset per metric, one bucket scalar per time
label. -/
def chartDatasets (metrics : List Metric) (buckets : List (ℤ × ℤ)) : List (List ℚ) :=
  metrics.map (fun m => buckets.map (fun b => bucketScalar m.statistic m.datapoints b.1 b.2))

/-- src lines 282, 358–359: `absMaxValue`, updated across every metric and
bucket in order (metric-major), starting from 0. -/
def absMaxValue (datasets : List (List ℚ)) : ℚ :=
  datasets.flatten.foldl jsMaxUpd 0

/-- src line 367: `topEdge = Math.ceil(absMaxValue * 1.2)`. -/
def topEdge (datasets : List (List ℚ)) : ℤ :=
  ⌈absMaxValue datasets * (6 / 5 : ℚ)⌉

/-- src lines 369–372: every dataset is encoded against the same
`topEdge`. -/
def datasetsAsStrings (datasets : List (List ℚ)) : List String :=
  datasets.map (fun d => extendedEncode d ((topEdge datasets : ℤ) : ℚ))

/-- src line 386–390: the per-metric line style token. -/
def styleOf (m : Metric) : String :=
  if m.dashed then m.thickness ++ ",5,5" else m.thickness

/-- The chart object: the effective configuration (src lines 95–99) plus
the constructed metrics. -/
structure Chart where
  timeOffset : ℚ := 1440
  timePeriod : ℚ := 60
  chartSamples : ℚ := 24
  width : ℚ := 1000
  height : ℚ := 250
  metrics : List Metric := []

/-- src lines 279–407: `getURL`.  With zero datapoints the JS loop
dereferences the boolean `false` as a `Date` and throws a `TypeError`;
this is the error branch. -/
def getURL (c : Chart) : Except String String :=
  match chartTimeRange c.metrics with
  | none => Except.error "TypeError: i.getTime is not a function"
  | some (startT, endT) =>
    let buckets := timeBuckets startT endT c.chartSamples
    let labels := buckets.map (fun b => labelText b.2)
    let datasets := chartDatasets c.metrics buckets
    let datasetsAsString := String.intercalate "," (datasetsAsStrings datasets)
    let titles := c.metrics.map getTitle
    let colors := c.metrics.map (fun m => jsToString m.color)
    let styles := c.metrics.map styleOf
    Except.ok ("http://chart.googleapis.com/chart?" ++ "cht=lc&" ++
      "chxl=0:|" ++ String.intercalate "|" labels ++ "&" ++ "chxt=x,y&" ++
      "chco=" ++ String.intercalate "," colors ++ "&" ++
      "chls=" ++ String.intercalate "|" styles ++ "&" ++
      "chs=" ++ toString c.width ++ "x" ++ toString c.height ++ "&" ++
      "chxr=1,0," ++ toString (topEdge datasets) ++ ",10&" ++ "chg=20,10,1,5&" ++
      "chdl=" ++ String.intercalate "|" titles ++ "&" ++
      "chd=e:" ++ datasetsAsString)

lemma jsTrunc_intCast (n : ℤ) : jsTrunc (n : ℚ) = n := by
  unfold jsTrunc
  by_cases h : (0 : ℚ) ≤ (n : ℚ)
  · rw [if_pos h, Int.floor_intCast]
  · rw [if_neg h, Int.ceil_intCast]

lemma jsTrunc_add_int (i d : ℤ) : jsTrunc ((i : ℚ) + (d : ℚ)) = i + d := by
  rw [← Int.cast_add, jsTrunc_intCast]

/-- With an integer step `d ≥ 1`, the walk from `i` to `i + N*d` visits
exactly `N + 1` boundaries (given enough fuel). -/
lemma walkBoundaries_length (d : ℤ) (hd : 1 ≤ d) : ∀ (N : ℕ) (i : ℤ) (fuel : ℕ),
    N + 2 ≤ fuel →
    (walkBoundaries (i + (N : ℤ) * d) (d : ℚ) i fuel).length = N + 1 := by
  intro N
  induction N with
  | zero =>
    intro i fuel hf
    obtain ⟨f, rfl⟩ : ∃ f, fuel = f + 1 := ⟨fuel - 1, by omega⟩
    simp only [Nat.cast_zero, zero_mul, add_zero]
    rw [walkBoundaries]
    rw [if_pos (le_refl i)]
    obtain ⟨g, rfl⟩ : ∃ g, f = g + 1 := ⟨f - 1, by omega⟩
    rw [jsTrunc_add_int, walkBoundaries]
    rw [if_neg (by omega : ¬ i + d ≤ i)]
    rfl
  | succ n ih =>
    intro i fuel hf
    obtain ⟨f, rfl⟩ : ∃ f, fuel = f + 1 := ⟨fuel - 1, by omega⟩
    rw [show ((n + 1 : ℕ) : ℤ) = (n : ℤ) + 1 by push_cast; ring]
    rw [walkBoundaries]
    have hpos : i ≤ i + ((n : ℤ) + 1) * d := by nlinarith [Int.natCast_nonneg n]
    rw [if_pos hpos, jsTrunc_add_int]
    rw [show i + ((n : ℤ) + 1) * d = (i + d) + (n : ℤ) * d by ring]
    rw [List.length_cons, ih (i + d) f (by omega)]

/-- With an integer step `d ≥ 1` and a span of exactly `N * d`, the bucket
list has exactly `N` entries. -/
lemma timeBuckets_length (s e : ℤ) (N : ℕ) (d : ℤ) (hN : 0 < N) (hd : 1 ≤ d)
    (hspan : e - s = (N : ℤ) * d) :
    (timeBuckets s e (N : ℚ)).length = N := by
  have hdiff : ((e - s : ℤ) : ℚ) / (N : ℚ) = (d : ℚ) := by
    have hNne : ((N : ℕ) : ℚ) ≠ 0 := by exact_mod_cast hN.ne'
    rw [hspan]
    push_cast
    rw [mul_comm, mul_div_assoc, div_self hNne, mul_one]
  have hfuel : N + 2 ≤ (e - s).toNat + 2 := by
    have h1 : (N : ℤ) ≤ (N : ℤ) * d := le_mul_of_one_le_right (by positivity) hd
    omega
  have hL : (walkBoundaries e (d : ℚ) s ((e - s).toNat + 2)).length = N + 1 := by
    have hw := walkBoundaries_length d hd N s ((e - s).toNat + 2) hfuel
    rw [show s + (N : ℤ) * d = e by omega] at hw
    exact hw
  simp only [timeBuckets]
  rw [hdiff, List.length_zip, List.length_tail, hL]
  omega

/-- C1 (amended): when the timestamp span is a positive integer multiple
`N * d` of the bucket count `N` (`d ≥ 1` ms, so each truncated step is
exact), the walk yields exactly `N` buckets, hence `N` labels and `N`
entries in every metric's value sequence. -/
theorem claim_C1 (c : Chart) (s e : ℤ) (N : ℕ) (d : ℤ)
    (hrange : chartTimeRange c.metrics = some (s, e))
    (hcs : c.chartSamples = (N : ℚ))
    (hN : 0 < N) (hd : 1 ≤ d) (hspan : e - s = (N : ℤ) * d) :
    (timeBuckets s e c.chartSamples).length = N ∧
    ((timeBuckets s e c.chartSamples).map (fun b => labelText b.2)).length = N ∧
    ∀ ds ∈ chartDatasets c.metrics (timeBuckets s e c.chartSamples), ds.length = N := by
  have hb : (timeBuckets s e c.chartSamples).length = N := by
    rw [hcs]
    exact timeBuckets_length s e N d hN hd hspan
  refine ⟨hb, by rw [List.length_map, hb], ?_⟩
  intro ds hds
  obtain ⟨m, _, rfl⟩ := List.mem_map.mp hds
  rw [List.length_map, hb]

/-- Witness for C1: one metric with datapoints at t = 0 ms and t = 4 ms,
`chartSamples = 2` (span 4 = 2 · 2). -/
theorem claim_C1_witness :
    (chartTimeRange [{ datapoints := [{ Timestamp := 0 }, { Timestamp := 4 }] }] =
        some (0, 4)) ∧
    ((timeBuckets 0 4 (Chart.mk 1440 60 2 1000 250
        [{ datapoints := [{ Timestamp := 0 }, { Timestamp := 4 }] }]).chartSamples).length = 2 ∧
      ((timeBuckets 0 4 (Chart.mk 1440 60 2 1000 250
        [{ datapoints := [{ Timestamp := 0 }, { Timestamp := 4 }] }]).chartSamples).map
          (fun b => labelText b.2)).length = 2 ∧
      ∀ ds ∈ chartDatasets (Chart.mk 1440 60 2 1000 250
          [{ datapoints := [{ Timestamp := 0 }, { Timestamp := 4 }] }]).metrics
          (timeBuckets 0 4 (Chart.mk 1440 60 2 1000 250
            [{ datapoints := [{ Timestamp := 0 }, { Timestamp := 4 }] }]).chartSamples),
        ds.length = 2) :=
  ⟨by norm_num [chartTimeRange],
    claim_C1 (Chart.mk 1440 60 2 1000 250
        [{ datapoints := [{ Timestamp := 0 }, { Timestamp := 4 }] }]) 0 4 2 2
      (by norm_num [chartTimeRange]) (by norm_num) (by norm_num) (by norm_num) (by norm_num)⟩

/-- C1 counterexample: datapoints at t = 0 and t = 10 ms with
`chartSamples = 4`.  `diff = 2.5`, and `setTime` truncation makes the walk
visit 0, 2, 4, 6, 8, 10: five buckets, not four. -/
theorem claim_C1_counterexample :
    chartTimeRange [{ datapoints := [{ Timestamp := 0 }, { Timestamp := 10 }] }] =
      some (0, 10) ∧
    (timeBuckets 0 10 (4 : ℚ)).length = 5 ∧
    (5 : ℕ) ≠ 4 := by
  refine ⟨by norm_num [chartTimeRange], ?_, by norm_num⟩
  have hwalk : walkBoundaries 10 (((10 - 0 : ℤ) : ℚ) / (4 : ℚ)) 0 ((10 - 0 : ℤ).toNat + 2) =
      [0, 2, 4, 6, 8, 10] := by
    norm_num [walkBoundaries, jsTrunc]
  simp only [timeBuckets]
  rw [hwalk]
  rfl

/-- Spec-side absolute maximum (amended): the maximum of 0 and every bucket
scalar across every metric and bucket. -/
def specAbsMax (datasets : List (List ℚ)) : ℚ :=
  datasets.flatten.foldl max 0

/-- C5 (amended): the y-axis ceiling is `⌈max(0, all bucket scalars) * 1.2⌉`
and this same ceiling is the scale denominator for every metric's encoded
sequence. -/
theorem claim_C5 (datasets : List (List ℚ)) :
    topEdge datasets = ⌈specAbsMax datasets * (6 / 5 : ℚ)⌉ ∧
    datasetsAsStrings datasets = datasets.map (fun dataset =>
      extendedEncode dataset ((⌈specAbsMax datasets * (6 / 5 : ℚ)⌉ : ℤ) : ℚ)) := by
  have htop : topEdge datasets = ⌈specAbsMax datasets * (6 / 5 : ℚ)⌉ := by
    unfold topEdge absMaxValue specAbsMax
    rw [foldl_jsMaxUpd_eq]
  exact ⟨htop, by unfold datasetsAsStrings; rw [htop]⟩

/-- One metric, statistic `Average`, three points all at value −1
(timestamps 0, 1, 2 ms), two buckets. -/
def chartNeg : Chart :=
  { chartSamples := 2,
    metrics := [{ datapoints :=
      [{ Timestamp := 0, Average := some (-1) },
       { Timestamp := 1, Average := some (-1) },
       { Timestamp := 2, Average := some (-1) }] }] }

lemma timeBuckets_0_2_2 : timeBuckets 0 2 (2 : ℚ) = [(0, 1), (1, 2)] := by
  have hwalk : walkBoundaries 2 (((2 - 0 : ℤ) : ℚ) / (2 : ℚ)) 0 ((2 - 0 : ℤ).toNat + 2) =
      [0, 1, 2] := by
    norm_num [walkBoundaries, jsTrunc]
  simp only [timeBuckets]
  rw [hwalk]
  rfl

lemma chartNeg_datasets :
    chartDatasets chartNeg.metrics (timeBuckets 0 2 chartNeg.chartSamples) = [[-1, -1]] := by
  rw [show chartNeg.chartSamples = (2 : ℚ) from rfl, timeBuckets_0_2_2]
  show [[bucketScalar (.pStr "Average") chartNeg.metrics.headI.datapoints 0 1,
    bucketScalar (.pStr "Average") chartNeg.metrics.headI.datapoints 1 2]] = [[-1, -1]]
  have hstat : jsEqMaximum (.pStr "Average") = false := by decide
  have h1 : bucketReduce chartNeg.metrics.headI.datapoints 0 1 = (0, -1, 1) := by
    rw [bucketReduce_eq]
    norm_num [selMaxima, selAverages, selectedPoints, chartNeg, List.filter, List.filterMap_cons, List.filterMap_nil]
  have h2 : bucketReduce chartNeg.metrics.headI.datapoints 1 2 = (0, -1, 1) := by
    rw [bucketReduce_eq]
    norm_num [selMaxima, selAverages, selectedPoints, chartNeg, List.filter, List.filterMap_cons, List.filterMap_nil]
  unfold bucketScalar averageInPeriod
  rw [hstat, h1, h2]
  norm_num

/-- C5 counterexample: with every bucket scalar equal to −1, the claim's
`A = max scalar = -1` gives `⌈-1.2⌉ = -1`, but the code's accumulator
starts at 0 and computes ceiling 0. -/
theorem claim_C5_counterexample :
    chartTimeRange chartNeg.metrics = some (0, 2) ∧
    (chartDatasets chartNeg.metrics (timeBuckets 0 2 chartNeg.chartSamples)).flatten.max?
      = some (-1) ∧
    ⌈(-1 : ℚ) * (6 / 5)⌉ = -1 ∧
    topEdge (chartDatasets chartNeg.metrics (timeBuckets 0 2 chartNeg.chartSamples)) = 0 ∧
    (0 : ℤ) ≠ -1 := by
  refine ⟨by norm_num [chartTimeRange, chartNeg], ?_, ?_, ?_, by norm_num⟩
  · rw [chartNeg_datasets]
    rfl
  · rw [show (-1 : ℚ) * (6 / 5) = -(6 / 5) by norm_num, Int.ceil_neg]
    norm_num
  · rw [chartNeg_datasets]
    unfold topEdge absMaxValue
    norm_num [jsMaxUpd]

/-- One metric, two datapoints flat at average 0 (timestamps 0, 2 ms),
`chartSamples = 2`: the computed ceiling is 0 and the encoder is invoked
with `maxVal = 0`. -/
def chartFlat : Chart :=
  { chartSamples := 2,
    metrics := [{ datapoints :=
      [{ Timestamp := 0, Average := some 0 },
       { Timestamp := 2, Average := some 0 }] }] }

/-- A chart with one metric and no datapoints at all. -/
def chartEmpty : Chart := { metrics := [{}] }

lemma chartFlat_datasets :
    chartDatasets chartFlat.metrics (timeBuckets 0 2 chartFlat.chartSamples) = [[0, 0]] := by
  rw [show chartFlat.chartSamples = (2 : ℚ) from rfl, timeBuckets_0_2_2]
  show [[bucketScalar (.pStr "Average") chartFlat.metrics.headI.datapoints 0 1,
    bucketScalar (.pStr "Average") chartFlat.metrics.headI.datapoints 1 2]] = [[0, 0]]
  have hstat : jsEqMaximum (.pStr "Average") = false := by decide
  have h1 : bucketReduce chartFlat.metrics.headI.datapoints 0 1 = (0, 0, 0) := by
    rw [bucketReduce_eq]
    norm_num [selMaxima, selAverages, selectedPoints, chartFlat, List.filter, List.filterMap_cons, List.filterMap_nil]
  have h2 : bucketReduce chartFlat.metrics.headI.datapoints 1 2 = (0, 0, 1) := by
    rw [bucketReduce_eq]
    norm_num [selMaxima, selAverages, selectedPoints, chartFlat, List.filter, List.filterMap_cons, List.filterMap_nil]
  unfold bucketScalar averageInPeriod
  rw [hstat, h1, h2]
  norm_num

/-- C6: the code has no degenerate-data guard.  With zero datapoints the
walk crashes with a `TypeError` (not a "no data to render" report); with
all-zero data the ceiling is 0, the encoder is called with `maxVal = 0`
(division by zero in JS) and `getURL` still "succeeds". -/
theorem claim_C6 :
    getURL chartEmpty = Except.error "TypeError: i.getTime is not a function" ∧
    topEdge (chartDatasets chartFlat.metrics (timeBuckets 0 2 chartFlat.chartSamples)) = 0 ∧
    datasetsAsStrings (chartDatasets chartFlat.metrics
      (timeBuckets 0 2 chartFlat.chartSamples)) = [extendedEncode [0, 0] (0 : ℚ)] ∧
    (getURL chartFlat).isOk = true := by
  have htop : topEdge ([[0, 0]] : List (List ℚ)) = 0 := by
    unfold topEdge absMaxValue
    norm_num [jsMaxUpd]
  refine ⟨rfl, ?_, ?_, ?_⟩
  · rw [chartFlat_datasets]; exact htop
  · rw [chartFlat_datasets]
    unfold datasetsAsStrings
    rw [htop]
    rfl
  · have hrange : chartTimeRange chartFlat.metrics = some (0, 2) := by
      norm_num [chartTimeRange, chartFlat]
    unfold getURL
    rw [hrange]
    rfl

/-! ## Configuration and construction (src lines 79–161) -/

/-- A configuration property value: the shapes a caller's config object
carries (numbers for the numeric options, an array for `metrics`). -/
inductive ConfigVal where
  | num (q : ℚ)
  | metricsArr (l : List (List (String × ParamVal)))

/-- A JavaScript object as an ordered property list with unique keys. -/
abbrev JsObject := List (String × ConfigVal)

/-- A property write with JavaScript object semantics: overwrite an
existing key in place (keeping its position), else append. -/
def setProp : JsObject → String → ConfigVal → JsObject
  | [], k, v => [(k, v)]
  | p :: rest, k, v => if p.1 == k then (k, v) :: rest else p :: setProp rest k v

/-- Property read; `none` models `undefined`. -/
def getProp (o : JsObject) (k : String) : Option ConfigVal :=
  (o.find? (fun p => p.1 == k)).map Prod.snd

/-- JS `Object.assign(target, ...sources)`: copy every source's properties
into the target, in order. -/
def objectAssign (target : JsObject) (sources : List JsObject) : JsObject :=
  sources.foldl (fun t s => s.foldl (fun t2 p => setProp t2 p.1 p.2) t) target

/-- src lines 79–85: `defaultConfig`. -/
def defaultConfig : JsObject :=
  [("timeOffset", .num 1440), ("timePeriod", .num 60), ("chartSamples", .num 24),
   ("width", .num 1000), ("height", .num 250)]

/-- A caller configuration object with recognized field shapes; `none`
means the key is absent from the object. -/
structure ConfigInput where
  metrics : Option (List (List (String × ParamVal))) := none
  timeOffset : Option ℚ := none
  timePeriod : Option ℚ := none
  chartSamples : Option ℚ := none
  width : Option ℚ := none
  height : Option ℚ := none

def optField (k : String) (v : Option ConfigVal) : JsObject :=
  match v with
  | some cv => [(k, cv)]
  | none => []

/-- The caller's config object (property order is immaterial: the keys are
distinct). -/
def toObject (ci : ConfigInput) : JsObject :=
  optField "metrics" (ci.metrics.map ConfigVal.metricsArr) ++
  optField "timeOffset" (ci.timeOffset.map ConfigVal.num) ++
  optField "timePeriod" (ci.timePeriod.map ConfigVal.num) ++
  optField "chartSamples" (ci.chartSamples.map ConfigVal.num) ++
  optField "width" (ci.width.map ConfigVal.num) ++
  optField "height" (ci.height.map ConfigVal.num)

/-- src lines 95–99: `this.config = Object.assign({}, defaultConfig, config)`
— a fresh target object, the caller's object only read. -/
def mergedConfig (ci : ConfigInput) : JsObject :=
  objectAssign [] [defaultConfig, toObject ci]

/-- Read a property as a number; `none` models JS `NaN`/`undefined`. -/
def getNumProp (o : JsObject) (k : String) : Option ℚ :=
  match getProp o k with
  | some (.num q) => some q
  | _ => none

/-- JS comparison `a > b` with NaN-is-false semantics. -/
def jsGT (a : Option ℚ) (b : ℚ) : Bool :=
  match a with
  | some q => decide (b < q)
  | none => false

/-- JS comparison `a < b` with NaN-is-false semantics. -/
def jsLT (a : Option ℚ) (b : ℚ) : Bool :=
  match a with
  | some q => decide (q < b)
  | none => false

/-- JS comparison `a * b > c` with NaN-is-false semantics. -/
def jsProdGT (a b : Option ℚ) (c : ℚ) : Bool :=
  match a, b with
  | some x, some y => decide (c < x * y)
  | _, _ => false

/-- JS check `a % 60 !== 0` (src line 111); a missing/NaN value compares `!== 0` as
true. -/
def jsModNe0 (a : Option ℚ) (b : ℚ) : Bool :=
  match a with
  | some q => decide (jsMod q b ≠ 0)
  | none => true

def digitsToInt (ds : List Char) : ℤ :=
  ds.foldl (fun a c => a * 10 + ((c.toNat - '0'.toNat : ℕ) : ℤ)) 0

def leadingDigits : List Char → List Char
  | [] => []
  | c :: cs => if c.isDigit then c :: leadingDigits cs else []

/-- JS `parseInt(x, 10)` (src line 146), approximated: an optional sign
followed by leading decimal digits; the result is stored in its printed
form (`"NaN"` when nothing parses).  No claim depends on this field. -/
def parseIntToString (v : ParamVal) : String :=
  match v with
  | .pNum q => toString (jsTrunc q)
  | .pStr s =>
    match s.toList with
    | '-' :: cs =>
      match leadingDigits cs with
      | [] => "NaN"
      | ds => toString (-(digitsToInt ds))
    | cs =>
      match leadingDigits cs with
      | [] => "NaN"
      | ds => toString (digitsToInt ds)
  | _ => "NaN"

/-- src line 152: `m.Dimensions = params[k]` (a non-array value would make
later indexing misbehave; modelled as the empty list, unused by claims). -/
def dimsOf : ParamVal → List Dimension
  | .pDims l => l
  | _ => []

/-- The lower-cased parameter names the `addMetric` switch recognizes
(src lines 126–153). -/
def knownKeys : List String :=
  ["title", "statistic", "namespace", "metricname", "color", "unit",
   "thickness", "dashed", "dimensions"]

/-- One arm of the `addMetric` switch (src lines 123–157). -/
def applyParam (m : Metric) (k : String) (v : ParamVal) : Except String Metric :=
  if k.toLower = "title" then .ok { m with title := some (jsToString v) }
  else if k.toLower = "statistic" then .ok { m with statistic := v }
  else if k.toLower = "namespace" then .ok { m with Namespace := some (jsToString v) }
  else if k.toLower = "metricname" then .ok { m with MetricName := some (jsToString v) }
  else if k.toLower = "color" then .ok { m with color := v }
  else if k.toLower = "unit" then .ok { m with Unit := some v }
  else if k.toLower = "thickness" then .ok { m with thickness := parseIntToString v }
  else if k.toLower = "dashed" then .ok { m with dashed := jsTruthy v }
  else if k.toLower = "dimensions" then .ok { m with Dimensions := dimsOf v }
  else .error ("Unknown parameter: " ++ k)

/-- src lines 119–161: `addMetric` over a parameter object (ordered key
list); the first unknown key throws. -/
def addMetric (params : List (String × ParamVal)) : Except String Metric :=
  params.foldlM (fun m p => applyParam m p.1 p.2) ({} : Metric)

/-- src lines 105–116: the dimension and period checks and the `addMetric`
loop, after `config.metrics` has been found to be an array.  The `getD 0`
fallbacks are never reached: the merge guarantees the five numeric
properties are present (see `merged_lookups`). -/
def mkChartChecks (cfg : JsObject) (ms : List (List (String × ParamVal))) :
    Except String Chart :=
  if jsGT (getNumProp cfg "width") 1000 || jsGT (getNumProp cfg "height") 1000 ||
      jsProdGT (getNumProp cfg "height") (getNumProp cfg "width") 300000 then
    .error "Maximum value for width or height is 1,000. Width x height cannot exceed 300,000."
  else if jsLT (getNumProp cfg "width") 1 || jsLT (getNumProp cfg "height") 1 then
    .error "Invalid width and height parameters"
  else if jsModNe0 (getNumProp cfg "timePeriod") 60 then
    .error "config.timePeriod should be based on 60"
  else
    (ms.mapM addMetric).map (fun metrics =>
      { timeOffset := (getNumProp cfg "timeOffset").getD 0,
        timePeriod := (getNumProp cfg "timePeriod").getD 0,
        chartSamples := (getNumProp cfg "chartSamples").getD 0,
        width := (getNumProp cfg "width").getD 0,
        height := (getNumProp cfg "height").getD 0,
        metrics := metrics })

/-- src lines 87–117: the `AwsCloudWatchChart` constructor. -/
def mkChart (ci : ConfigInput) : Except String Chart :=
  match getProp (mergedConfig ci) "metrics" with
  | some (.metricsArr ms) => mkChartChecks (mergedConfig ci) ms
  | _ => .error "config.metrics array required"

lemma merged_lookups (ci : ConfigInput) :
    getProp (mergedConfig ci) "timeOffset" = some (.num (ci.timeOffset.getD 1440)) ∧
    getProp (mergedConfig ci) "timePeriod" = some (.num (ci.timePeriod.getD 60)) ∧
    getProp (mergedConfig ci) "chartSamples" = some (.num (ci.chartSamples.getD 24)) ∧
    getProp (mergedConfig ci) "width" = some (.num (ci.width.getD 1000)) ∧
    getProp (mergedConfig ci) "height" = some (.num (ci.height.getD 250)) ∧
    getProp (mergedConfig ci) "metrics" = ci.metrics.map ConfigVal.metricsArr := by
  obtain ⟨m, t, p, cs, w, h⟩ := ci
  cases m <;> cases t <;> cases p <;> cases cs <;> cases w <;> cases h <;>
    simp [mergedConfig, objectAssign, defaultConfig, toObject, optField, setProp,
      getProp, List.find?]

lemma jsMod_sixty_eq_zero_iff (q : ℚ) : jsMod q 60 = 0 ↔ ∃ k : ℤ, q = 60 * (k : ℚ) := by
  unfold jsMod
  constructor
  · intro h
    exact ⟨jsTrunc (q / 60), by linarith⟩
  · rintro ⟨k, rfl⟩
    have h60 : (60 : ℚ) * (k : ℚ) / 60 = (k : ℚ) := by
      field_simp
    rw [h60, jsTrunc_intCast]
    ring

lemma applyParam_isOk (m : Metric) (k : String) (v : ParamVal) :
    (applyParam m k v).isOk = true ↔ k.toLower ∈ knownKeys := by
  unfold applyParam knownKeys
  split_ifs with h1 h2 h3 h4 h5 h6 h7 h8 h9 <;> simp_all [Except.isOk, Except.toBool]

lemma foldlM_applyParam_isOk : ∀ (params : List (String × ParamVal)) (m : Metric),
    ((params.foldlM (fun m2 p => applyParam m2 p.1 p.2) m : Except String Metric)).isOk
        = true ↔
      ∀ kv ∈ params, kv.1.toLower ∈ knownKeys := by
  intro params
  induction params with
  | nil =>
    intro m
    simp [List.foldlM, pure, Except.pure, Except.isOk, Except.toBool]
  | cons p rest ih =>
    intro m
    rw [List.foldlM_cons]
    cases happ : applyParam m p.1 p.2 with
    | error e =>
      have hk : ¬ p.1.toLower ∈ knownKeys := by
        have hiff := applyParam_isOk m p.1 p.2
        rw [happ] at hiff
        intro hmem
        exact absurd (hiff.mpr hmem) (by simp [Except.isOk, Except.toBool])
      show ((Except.error e : Except String Metric)).isOk = true ↔
        ∀ kv ∈ p :: rest, kv.1.toLower ∈ knownKeys
      constructor
      · intro hok
        exact absurd hok (by simp [Except.isOk, Except.toBool])
      · intro hall
        exact absurd (hall p (List.mem_cons_self p rest)) hk
    | ok m1 =>
      have hk : p.1.toLower ∈ knownKeys := by
        have hiff := applyParam_isOk m p.1 p.2
        rw [happ] at hiff
        exact hiff.mp rfl
      have hbind : ((Except.ok m1 : Except String Metric) >>=
          fun b => rest.foldlM (fun m2 p2 => applyParam m2 p2.1 p2.2) b) =
            rest.foldlM (fun m2 p2 => applyParam m2 p2.1 p2.2) m1 := rfl
      rw [hbind, ih m1]
      constructor
      · intro hall kv hkv
        rcases List.mem_cons.mp hkv with heq | hmem
        · rw [heq]; exact hk
        · exact hall kv hmem
      · intro hall kv hkv
        exact hall kv (List.mem_cons_of_mem _ hkv)

lemma addMetric_isOk (params : List (String × ParamVal)) :
    (addMetric params).isOk = true ↔ ∀ kv ∈ params, kv.1.toLower ∈ knownKeys :=
  foldlM_applyParam_isOk params {}

lemma mapM_addMetric_isOk : ∀ ms : List (List (String × ParamVal)),
    ((ms.mapM addMetric : Except String (List Metric))).isOk = true ↔
      ∀ mp ∈ ms, (addMetric mp).isOk = true := by
  intro ms
  induction ms with
  | nil => simp [List.mapM, List.mapM.loop, pure, Except.pure, Except.isOk, Except.toBool]
  | cons mp rest ih =>
    rw [List.mapM_cons]
    cases hmp : addMetric mp with
    | error e =>
      show ((Except.error e : Except String (List Metric))).isOk = true ↔
        ∀ mp2 ∈ mp :: rest, (addMetric mp2).isOk = true
      constructor
      · intro hok
        exact absurd hok (by simp [Except.isOk, Except.toBool])
      · intro hall
        have h1 := hall mp (List.mem_cons_self mp rest)
        rw [hmp] at h1
        exact absurd h1 (by simp [Except.isOk, Except.toBool])
    | ok m1 =>
      have hbind : ((Except.ok m1 : Except String Metric) >>= fun x =>
          (rest.mapM addMetric : Except String (List Metric)) >>= fun xs =>
            pure (x :: xs)) =
          ((rest.mapM addMetric : Except String (List Metric)) >>= fun xs =>
            pure (m1 :: xs)) := rfl
      rw [hbind]
      cases hrest : (rest.mapM addMetric : Except String (List Metric)) with
      | error e =>
        rw [hrest] at ih
        show ((Except.error e : Except String (List Metric))).isOk = true ↔
          ∀ mp2 ∈ mp :: rest, (addMetric mp2).isOk = true
        constructor
        · intro hok
          exact absurd hok (by simp [Except.isOk, Except.toBool])
        · intro hall
          have h2 : ∀ mp2 ∈ rest, (addMetric mp2).isOk = true := fun mp2 hm =>
            hall mp2 (List.mem_cons_of_mem _ hm)
          exact absurd (ih.mpr h2) (by simp [Except.isOk, Except.toBool])
      | ok xs =>
        rw [hrest] at ih
        constructor
        · intro _
          intro mp2 hmem
          rcases List.mem_cons.mp hmem with heq | h2
          · rw [heq, hmp]; rfl
          · exact ih.mp rfl mp2 h2
        · intro _
          rfl

lemma bool_eq_false_of_not {b : Bool} (h : ¬ b = true) : b = false := by
  cases b
  · rfl
  · exact absurd rfl h

lemma checks1_false_iff (w h : ℚ) :
    (jsGT (some w) 1000 || jsGT (some h) 1000 || jsProdGT (some h) (some w) 300000)
        = false ↔
      (w ≤ 1000 ∧ h ≤ 1000 ∧ h * w ≤ 300000) := by
  simp [jsGT, jsProdGT, not_lt, and_assoc]

lemma checks2_false_iff (w h : ℚ) :
    (jsLT (some w) 1 || jsLT (some h) 1) = false ↔ (1 ≤ w ∧ 1 ≤ h) := by
  simp [jsLT, not_lt]

lemma checks3_false_iff (q : ℚ) :
    jsModNe0 (some q) 60 = false ↔ ∃ k : ℤ, q = 60 * (k : ℚ) := by
  rw [show (jsModNe0 (some q) 60 = false) ↔ (jsMod q 60 = 0) from by simp [jsModNe0]]
  exact jsMod_sixty_eq_zero_iff q

lemma except_map_isOk {α β : Type} (f : α → β) (x : Except String α) :
    (Except.map f x).isOk = x.isOk := by
  cases x <;> rfl

lemma mkChartChecks_isOk_iff (cfg : JsObject) (ms : List (List (String × ParamVal)))
    (w h tp : ℚ)
    (hW : getNumProp cfg "width" = some w) (hH : getNumProp cfg "height" = some h)
    (hT : getNumProp cfg "timePeriod" = some tp) :
    (mkChartChecks cfg ms).isOk = true ↔
      ((w ≤ 1000 ∧ h ≤ 1000 ∧ h * w ≤ 300000) ∧ (1 ≤ w ∧ 1 ≤ h) ∧
        (∃ k : ℤ, tp = 60 * (k : ℚ)) ∧
        ∀ mp ∈ ms, ∀ kv ∈ mp, kv.1.toLower ∈ knownKeys) := by
  unfold mkChartChecks
  rw [hW, hH, hT]
  by_cases hc1 : (jsGT (some w) 1000 || jsGT (some h) 1000 ||
      jsProdGT (some h) (some w) 300000) = true
  · rw [if_pos hc1]
    have hbad : ¬(w ≤ 1000 ∧ h ≤ 1000 ∧ h * w ≤ 300000) := by
      intro hgood
      rw [(checks1_false_iff w h).mpr hgood] at hc1
      exact Bool.false_ne_true hc1
    constructor
    · intro h2
      exact absurd h2 (by simp [Except.isOk, Except.toBool])
    · rintro ⟨hg, -, -, -⟩
      exact absurd hg hbad
  · rw [if_neg hc1]
    have hg1 : w ≤ 1000 ∧ h ≤ 1000 ∧ h * w ≤ 300000 :=
      (checks1_false_iff w h).mp (bool_eq_false_of_not hc1)
    by_cases hc2 : (jsLT (some w) 1 || jsLT (some h) 1) = true
    · rw [if_pos hc2]
      have hbad : ¬(1 ≤ w ∧ 1 ≤ h) := by
        intro hgood
        rw [(checks2_false_iff w h).mpr hgood] at hc2
        exact Bool.false_ne_true hc2
      constructor
      · intro h2
        exact absurd h2 (by simp [Except.isOk, Except.toBool])
      · rintro ⟨-, hg, -, -⟩
        exact absurd hg hbad
    · rw [if_neg hc2]
      have hg2 : 1 ≤ w ∧ 1 ≤ h := (checks2_false_iff w h).mp (bool_eq_false_of_not hc2)
      by_cases hc3 : jsModNe0 (some tp) 60 = true
      · rw [if_pos hc3]
        have hbad : ¬ ∃ k : ℤ, tp = 60 * (k : ℚ) := by
          intro hgood
          rw [(checks3_false_iff tp).mpr hgood] at hc3
          exact Bool.false_ne_true hc3
        constructor
        · intro h2
          exact absurd h2 (by simp [Except.isOk, Except.toBool])
        · rintro ⟨-, -, hg, -⟩
          exact absurd hg hbad
      · rw [if_neg hc3]
        have hg3 : ∃ k : ℤ, tp = 60 * (k : ℚ) :=
          (checks3_false_iff tp).mp (bool_eq_false_of_not hc3)
        rw [except_map_isOk]
        rw [mapM_addMetric_isOk]
        constructor
        · intro hall
          exact ⟨hg1, hg2, hg3, fun mp hmp => (addMetric_isOk mp).mp (hall mp hmp)⟩
        · rintro ⟨-, -, -, hkeys⟩
          exact fun mp hmp => (addMetric_isOk mp).mpr (hkeys mp hmp)

/-- The amended validity predicate: the constructor succeeds exactly for an
array `metrics` whose parameter objects use only recognized keys, in-range
dimensions, and an effective `timePeriod` that is an integer multiple of 60
(zero and negative multiples included). -/
def validConfigAmended (ci : ConfigInput) : Prop :=
  (∃ ms, ci.metrics = some ms ∧ ∀ mp ∈ ms, ∀ kv ∈ mp, kv.1.toLower ∈ knownKeys) ∧
  (ci.width.getD 1000 ≤ 1000 ∧ ci.height.getD 250 ≤ 1000 ∧
    ci.height.getD 250 * ci.width.getD 1000 ≤ 300000) ∧
  (1 ≤ ci.width.getD 1000 ∧ 1 ≤ ci.height.getD 250) ∧
  (∃ k : ℤ, ci.timePeriod.getD 60 = 60 * (k : ℚ))

/-- The claim's validity predicate as literally stated: `timePeriod` must
be a positive multiple of 60. -/
def validConfigClaimed (ci : ConfigInput) : Prop :=
  (∃ ms, ci.metrics = some ms ∧ ∀ mp ∈ ms, ∀ kv ∈ mp, kv.1.toLower ∈ knownKeys) ∧
  (ci.width.getD 1000 ≤ 1000 ∧ ci.height.getD 250 ≤ 1000 ∧
    ci.height.getD 250 * ci.width.getD 1000 ≤ 300000) ∧
  (1 ≤ ci.width.getD 1000 ∧ 1 ≤ ci.height.getD 250) ∧
  (∃ k : ℤ, 0 < k ∧ ci.timePeriod.getD 60 = 60 * (k : ℚ))

lemma mkChart_isOk_iff (ci : ConfigInput) :
    (mkChart ci).isOk = true ↔ validConfigAmended ci := by
  have hW : getNumProp (mergedConfig ci) "width" = some (ci.width.getD 1000) := by
    unfold getNumProp
    rw [(merged_lookups ci).2.2.2.1]
  have hH : getNumProp (mergedConfig ci) "height" = some (ci.height.getD 250) := by
    unfold getNumProp
    rw [(merged_lookups ci).2.2.2.2.1]
  have hT : getNumProp (mergedConfig ci) "timePeriod" = some (ci.timePeriod.getD 60) := by
    unfold getNumProp
    rw [(merged_lookups ci).2.1]
  unfold mkChart validConfigAmended
  rw [(merged_lookups ci).2.2.2.2.2]
  cases hm : ci.metrics with
  | none =>
    constructor
    · intro h2
      exact absurd h2 (by simp [Except.isOk, Except.toBool])
    · rintro ⟨⟨ms, hms, -⟩, -⟩
      cases hms
  | some ms =>
    show (mkChartChecks (mergedConfig ci) ms).isOk = true ↔ _
    rw [mkChartChecks_isOk_iff (mergedConfig ci) ms _ _ _ hW hH hT]
    constructor
    · rintro ⟨hg1, hg2, hg3, hkeys⟩
      exact ⟨⟨ms, rfl, hkeys⟩, hg1, hg2, hg3⟩
    · rintro ⟨⟨ms2, hms2, hkeys⟩, hg1, hg2, hg3⟩
      cases hms2
      exact ⟨hg1, hg2, hg3, hkeys⟩

/-- C7 (amended): construction succeeds exactly when `metrics` is an array,
all per-metric keys are recognized (case-insensitively), the dimensions are
in range, and the effective `timePeriod` is an integer multiple of 60.  The
constructor is pure: no network activity is modelled before or during it. -/
theorem claim_C7 (ci : ConfigInput) :
    (mkChart ci).isOk = true ↔ validConfigAmended ci :=
  mkChart_isOk_iff ci

/-- Witness for C7: a config with one metric using only the recognized key
`title` and defaults otherwise constructs successfully. -/
theorem claim_C7_witness :
    (mkChart { metrics := some [[]] }).isOk = true :=
  (claim_C7 _).mpr
    ⟨⟨[[]], rfl, by simp⟩, by norm_num, by norm_num, ⟨1, by norm_num⟩⟩

/-- C7 counterexample: `timePeriod = 0` is not a *positive* multiple of 60,
so the claim calls the configuration invalid; the constructor's check
`0 % 60 !== 0` passes and construction succeeds. -/
theorem claim_C7_counterexample :
    (mkChart { metrics := some [], timePeriod := some ((0 : ℚ)) }).isOk = true ∧
    ¬ validConfigClaimed { metrics := some [], timePeriod := some ((0 : ℚ)) } := by
  constructor
  · exact (mkChart_isOk_iff _).mpr
      ⟨⟨[], rfl, by simp⟩, by norm_num, by norm_num, ⟨0, by norm_num⟩⟩
  · rintro ⟨-, -, -, k, hk0, hk⟩
    have h0 : (0 : ℚ) = 60 * (k : ℚ) := hk
    have hkq : (k : ℚ) = 0 := by linarith
    have hkz : k = 0 := by exact_mod_cast hkq
    omega

/-- C10: the constructor's configuration is a fresh merge
(`Object.assign({}, defaultConfig, config)`): the caller's object is only
read, every key present in it keeps the caller's value, and every absent
key takes its default (timeOffset 1440, timePeriod 60, chartSamples 24,
width 1000, height 250). -/
theorem claim_C10 (ci : ConfigInput) :
    getProp (mergedConfig ci) "timeOffset" = some (.num (ci.timeOffset.getD 1440)) ∧
    getProp (mergedConfig ci) "timePeriod" = some (.num (ci.timePeriod.getD 60)) ∧
    getProp (mergedConfig ci) "chartSamples" = some (.num (ci.chartSamples.getD 24)) ∧
    getProp (mergedConfig ci) "width" = some (.num (ci.width.getD 1000)) ∧
    getProp (mergedConfig ci) "height" = some (.num (ci.height.getD 250)) ∧
    getProp (mergedConfig ci) "metrics" = ci.metrics.map ConfigVal.metricsArr :=
  merged_lookups ci
